import Mathlib

/-!
Shallow embedding of the Discovery & Interaction Controller of the
recommendation-system frontend (the `App` component and its handlers:
`fetchRecommendations`, `handleSearch`, `fetchStats`, `fetchAbTestInfo`,
`logInteraction`, `showNotification`, `handleRefresh`, the two
`useEffect` blocks and the tab buttons).

Each asynchronous handler is split into two pure pieces, reflecting the
single-threaded event-loop semantics of the source:

* a *dispatch* function `AppState → AppState × List Request` capturing the
  synchronous state writes performed before `await` together with the
  network request issued (if any, after the validation guards), and
* a response-application function capturing the state writes performed in
  the `then`/`catch`/`finally` arms when a response of that kind arrives.

Item payloads, stats snapshots and A/B assignments are opaque JSON blobs
to the controller, so they are embedded as opaque carrier types.
-/

namespace RecApp

/-- A content item as the controller sees it: the controller only ever
uses the identity of items (it stores the arrays it receives verbatim),
so the payload is reduced to its identity key. -/
structure ResultItem where
  itemId : String
deriving DecidableEq, Repr

/-- Opaque payload of a `GET /api/stats` response (`response.data.statistics`);
the controller stores it wholesale and never inspects it. -/
def StatsSnapshot : Type := String

instance : DecidableEq StatsSnapshot := inferInstanceAs (DecidableEq String)

instance : Repr StatsSnapshot := inferInstanceAs (Repr String)

/-- Opaque payload of a `GET /api/ab/arm` response (`response.data`);
stored wholesale, never inspected by the controller. -/
def ABAssignment : Type := String

instance : DecidableEq ABAssignment := inferInstanceAs (DecidableEq String)

instance : Repr ABAssignment := inferInstanceAs (Repr String)

/-- The `useState` cells of the `App` component (lines 21-35 of the source).
`selectedItem`/`isModalOpen` are omitted: no claim and no handler under
study touches them. -/
structure AppState where
  currentUser : String
  recommendations : List ResultItem
  searchResults : List ResultItem
  contentTypeFilter : String
  searchType : String
  loading : Bool
  searchLoading : Bool
  stats : Option StatsSnapshot
  abTestInfo : Option ABAssignment
  algorithm : String
  error : Option String
  activeTab : String
  lastSearchQuery : String
deriving DecidableEq, Repr

/-- JavaScript `String.prototype.trim()`: strip whitespace from both ends
of the string. -/
def jsTrim (s : String) : String :=
  String.mk (((s.toList.dropWhile Char.isWhitespace).reverse.dropWhile Char.isWhitespace).reverse)

def recommendationsTab : String := "recommendations"

def searchTab : String := "search"

def simpleSearchType : String := "simple"

def demoUser : String := "demo_user_1"

/-- The initial values of the `useState` cells. -/
def initialState : AppState where
  currentUser := demoUser
  recommendations := []
  searchResults := []
  contentTypeFilter := ""
  searchType := simpleSearchType
  loading := false
  searchLoading := false
  stats := none
  abTestInfo := none
  algorithm := ""
  error := none
  activeTab := recommendationsTab
  lastSearchQuery := ""

/-- The four remote query kinds the controller issues. -/
inductive FetchKind where
  | recommendations
  | search
  | stats
  | abArm
deriving DecidableEq, Repr

/-- A network request: its kind and the query parameters built by the
handler (in the order the source appends them). -/
structure Request where
  kind : FetchKind
  params : List (String × String)
deriving DecidableEq, Repr

def recFetchErrMsg : String := "Failed to fetch recommendations. Please try again."

def searchErrMsg : String := "Search failed. Please try again."

/-- Synchronous part of `fetchRecommendations` (source lines 38-54): guard
on an empty trimmed user id, set the loading flag, clear the error, and
issue `GET /api/recommend` with `user_id`, `n=20`, and `content_type`
only when the filter is truthy (non-empty). -/
def fetchRecommendationsDispatch (s : AppState) : AppState × List Request :=
  if jsTrim s.currentUser = "" then (s, [])
  else
    ({ s with loading := true, error := none },
     [{ kind := FetchKind.recommendations,
        params := [("user_id", s.currentUser), ("n", "20")] ++
          (if s.contentTypeFilter = "" then [] else [("content_type", s.contentTypeFilter)]) }])

/-- Synchronous part of `handleSearch` (source lines 67-90): guard on an
empty trimmed query, set the search loading flag, clear the error, record
`lastSearchQuery`, switch to the search tab, and issue `GET /api/search`
with `q`, `search_type`, `limit=20`, plus `user_id` when the current user
is truthy and `content_type` when the filter is truthy. -/
def handleSearchDispatch (query : String) (s : AppState) : AppState × List Request :=
  if jsTrim query = "" then (s, [])
  else
    ({ s with searchLoading := true, error := none,
              lastSearchQuery := query, activeTab := searchTab },
     [{ kind := FetchKind.search,
        params := [("q", query), ("search_type", s.searchType), ("limit", "20")] ++
          (if s.currentUser = "" then [] else [("user_id", s.currentUser)]) ++
          (if s.contentTypeFilter = "" then [] else [("content_type", s.contentTypeFilter)]) }])

/-- Synchronous part of `fetchStats` (source lines 102-104): no guard, no
state write before the await; issues `GET /api/stats`. -/
def fetchStatsDispatch (s : AppState) : AppState × List Request :=
  (s, [{ kind := FetchKind.stats, params := [] }])

/-- Synchronous part of `fetchAbTestInfo` (source lines 112-116): guard on
an empty trimmed user id; no state write before the await; issues
`GET /api/ab/arm?user_id=...`. -/
def fetchAbTestInfoDispatch (s : AppState) : AppState × List Request :=
  if jsTrim s.currentUser = "" then (s, [])
  else (s, [{ kind := FetchKind.abArm, params := [("user_id", s.currentUser)] }])

/-- The settlement of one of the four fetches: the success payload or the
failure of each kind. -/
inductive FetchResponse where
  | recOk (items : List ResultItem) (alg : String)
  | recErr
  | searchOk (items : List ResultItem)
  | searchErr
  | statsOk (v : StatsSnapshot)
  | statsErr
  | abOk (v : ABAssignment)
  | abErr
deriving DecidableEq, Repr

/-- State writes performed when a response settles, straight from the
`then`/`catch`/`finally` arms of the source:

* recommendations success (lines 55-56, 62): store the items and the
  algorithm tag, drop the loading flag;
* recommendations failure (lines 57-62): set the error banner, clear the
  recommendations, drop the loading flag;
* search success (lines 91, 97): store the results, drop the search
  loading flag;
* search failure (lines 92-97): set the error banner, clear the search
  results, drop the search loading flag;
* stats success (line 105): replace the snapshot wholesale;
* stats failure (lines 106-108): `console.error` only, no state write;
* ab-arm success (line 117): replace the assignment wholesale;
* ab-arm failure (lines 118-120): `console.error` only, no state write.

The source applies an arriving response unconditionally: there is no
generation counter and no check against later requests of the same kind. -/
def applyResponse (r : FetchResponse) (s : AppState) : AppState :=
  match r with
  | FetchResponse.recOk items alg =>
      { s with recommendations := items, algorithm := alg, loading := false }
  | FetchResponse.recErr =>
      { s with error := some recFetchErrMsg, recommendations := [], loading := false }
  | FetchResponse.searchOk items =>
      { s with searchResults := items, searchLoading := false }
  | FetchResponse.searchErr =>
      { s with error := some searchErrMsg, searchResults := [], searchLoading := false }
  | FetchResponse.statsOk v => { s with stats := some v }
  | FetchResponse.statsErr => s
  | FetchResponse.abOk v => { s with abTestInfo := some v }
  | FetchResponse.abErr => s

/-- The tab buttons (source lines 239-271): `onClick` calls only
`setActiveTab(tab)`; nothing else runs, so no request is issued. -/
def changeTab (tab : String) (s : AppState) : AppState × List Request :=
  ({ s with activeTab := tab }, [])

/-- `onContentTypeChange` is `setContentTypeFilter` (source lines 225, 283):
a bare state setter, no request issued synchronously. -/
def changeFilter (f : String) (s : AppState) : AppState × List Request :=
  ({ s with contentTypeFilter := f }, [])

/-- `onUserChange` is `setCurrentUser` (source line 209): a bare state
setter, no request issued synchronously. -/
def changeUser (u : String) (s : AppState) : AppState × List Request :=
  ({ s with currentUser := u }, [])

/-- `handleRefresh` (source lines 177-185): recommendations fetch when the
recommendations tab is active, else a search for `lastSearchQuery` when it
is truthy (non-empty), then unconditionally `fetchStats` and
`fetchAbTestInfo`. -/
def handleRefreshDispatch (s : AppState) : AppState × List Request :=
  let p1 :=
    if s.activeTab = recommendationsTab then fetchRecommendationsDispatch s
    else if s.lastSearchQuery = "" then (s, [])
    else handleSearchDispatch s.lastSearchQuery s
  let p2 := fetchStatsDispatch p1.1
  let p3 := fetchAbTestInfoDispatch p2.1
  (p3.1, p1.2 ++ p2.2 ++ p3.2)

/-- An event on the single-threaded event loop relevant to the search
race: a user submitting a search, or an in-flight fetch settling. The
source interleaves these arbitrarily; responses of overlapping requests
may settle in any order. -/
inductive ControllerEvent where
  | submitSearch (q : String)
  | respond (r : FetchResponse)
deriving DecidableEq, Repr

/-- One event-loop step: intents run their dispatch phase; settlements run
`applyResponse` (and issue nothing). -/
def stepController (s : AppState) (e : ControllerEvent) : AppState × List Request :=
  match e with
  | ControllerEvent.submitSearch q => handleSearchDispatch q s
  | ControllerEvent.respond r => (applyResponse r s, [])

/-- Run a sequence of event-loop steps, collecting the issued requests. -/
def runController (s : AppState) : List ControllerEvent → AppState × List Request
  | [] => (s, [])
  | e :: es =>
    let p := stepController s e
    let q := runController p.1 es
    (q.1, p.2 ++ q.2)

/-- The dependency values of the data-loading `useEffect` (source lines
188-191): its dep array is `[fetchRecommendations, fetchAbTestInfo]`, and
those `useCallback` closures are recreated exactly when their own dep
arrays change - `[currentUser, contentTypeFilter]` for the former and
`[currentUser]` for the latter. Hence the effect re-runs exactly when
`(currentUser, contentTypeFilter)` changes. -/
def dataEffectDeps (s : AppState) : String × String :=
  (s.currentUser, s.contentTypeFilter)

/-- Whether a render transition from `before` to `after` re-runs the
data-loading effect. -/
def dataEffectReruns (before after : AppState) : Bool :=
  decide (dataEffectDeps before ≠ dataEffectDeps after)

/-- Body of the data-loading effect (source lines 189-190): call
`fetchRecommendations()` then `fetchAbTestInfo()`. -/
def dataEffectBody (s : AppState) : AppState × List Request :=
  let p1 := fetchRecommendationsDispatch s
  let p2 := fetchAbTestInfoDispatch p1.1
  (p2.1, p1.2 ++ p2.2)

/-- The `setInterval` period of the stats-polling effect (source line 196). -/
def statsPollPeriodMs : Nat := 30000

/-- `setInterval(f, period)` armed at time 0 and cancelled by
`clearInterval` at time `cancelAt` fires at the positive multiples of
`period` that lie strictly before `cancelAt`; the cleanup guarantees no
tick after cancellation. Time is in milliseconds since mount. -/
def intervalFires (period cancelAt t : Nat) : Bool :=
  decide (0 < t) && decide (t % period = 0) && decide (t < cancelAt)

/-- The stats-polling effect (source lines 193-198): `fetchStats()` runs
synchronously at mount (time 0), then the interval fires every 30000 ms
until teardown. `fetchStats` is a `useCallback` with an empty dep array,
so the effect runs exactly once per component lifetime. -/
def statsPollFires (teardownAt t : Nat) : Bool :=
  decide (t = 0) || intervalFires statsPollPeriodMs teardownAt t

/-- The body of `POST /api/event` built by `logInteraction` (source lines
126-132): `context` itself is opaque to the controller beyond
`view_duration`, so only the fields the controller computes are kept. -/
structure InteractionEvent where
  user_id : String
  item_id : String
  type : String
  dwell_seconds : Nat
deriving DecidableEq, Repr

/-- Toast flavor chosen by `showNotification` (source line 149). -/
inductive NotifKind where
  | success
  | error
deriving DecidableEq, Repr

/-- A toast message as enqueued by `logInteraction`. -/
structure Toast where
  message : String
  kind : NotifKind
deriving DecidableEq, Repr

/-- `interactionType.charAt(0).toUpperCase() + interactionType.slice(1)`
(source line 138); on the empty string both halves are empty. -/
def capitalizeFirst (s : String) : String :=
  match s.toList with
  | [] => ""
  | c :: rest => String.mk (c.toUpper :: rest)

def interactionOkSuffix : String := " recorded! 🎉"

def interactionErrMsg : String := "Error logging interaction"

/-- `logInteraction(itemId, interactionType, context)` (source lines
124-144): builds the event from the current user, posts it, and shows a
success toast on 2xx or an error toast on failure. `viewDuration` models
`context.view_duration` (`|| 0` when absent); `postSucceeds` models the
settlement of the POST. No `useState` setter is called in either arm, so
the returned state is the input state. -/
def logInteraction (s : AppState) (itemId itype : String)
    (viewDuration : Option Nat) (postSucceeds : Bool) :
    AppState × InteractionEvent × Toast :=
  let ev : InteractionEvent :=
    { user_id := s.currentUser, item_id := itemId, type := itype,
      dwell_seconds := viewDuration.getD 0 }
  if postSucceeds then
    (s, ev, { message := capitalizeFirst itype ++ interactionOkSuffix, kind := NotifKind.success })
  else
    (s, ev, { message := interactionErrMsg, kind := NotifKind.error })

/-- Entrance-settle delay of a toast (source line 157): the class toggle
that slides the node in; it does not extend the node lifetime. -/
def notifEntranceSettleMs : Nat := 100

/-- Visible delay before the exit class is re-added (source line 167). -/
def notifVisibleDelayMs : Nat := 3000

/-- Exit-animation delay before the node is removed (source line 166). -/
def notifExitAnimMs : Nat := 300

/-- Total lifetime of a toast node in the DOM: removed by the nested
timeout at `visible delay + exit animation` after creation. -/
def notifLifetimeMs : Nat := notifVisibleDelayMs + notifExitAnimMs

/-- A toast node appended to `document.body` by `showNotification`
(source lines 147-152). The source creates a fresh DOM node per call;
node identity is modelled by a monotonically assigned `nodeId`. -/
structure DomNotification where
  nodeId : Nat
  message : String
  kind : NotifKind
  createdAt : Nat
deriving DecidableEq, Repr

/-- `showNotification(message, type)` (source lines 147-152): create a
fresh node carrying the message and flavor and append it to the body
immediately. Returns the new body children list and the next fresh id. -/
def showNotification (body : List DomNotification) (freshId : Nat)
    (message : String) (kind : NotifKind) (now : Nat) :
    List DomNotification × Nat :=
  (body ++ [{ nodeId := freshId, message := message, kind := kind, createdAt := now }], freshId + 1)

/-- Whether a toast node is still in the DOM at time `t`: appended at
`createdAt` (source line 152), removed by the timeout chain at
`createdAt + notifLifetimeMs` (source lines 160-167); nothing else
removes it (no manual dismissal path exists). -/
def notifPresentAt (n : DomNotification) (t : Nat) : Bool :=
  decide (n.createdAt ≤ t) && decide (t < n.createdAt + notifLifetimeMs)

def queryAlpha : String := "alpha"

def queryBeta : String := "beta"

def itemAlpha : ResultItem where
  itemId := "result-for-alpha"

def itemBeta : ResultItem where
  itemId := "result-for-beta"

/-- The out-of-order settlement scenario: the user submits a search for
`alpha`, then (while it is in flight) a search for `beta`; the response
for `beta` settles first, the stale response for `alpha` settles last. -/
def staleRaceTrace : List ControllerEvent :=
  [ControllerEvent.submitSearch queryAlpha,
   ControllerEvent.submitSearch queryBeta,
   ControllerEvent.respond (FetchResponse.searchOk [itemBeta]),
   ControllerEvent.respond (FetchResponse.searchOk [itemAlpha])]

def oldStatsSnap : StatsSnapshot := ("previous-stats-snapshot" : String)

/-- A state in which a stats snapshot and recommendations are already
displayed when the next stats poll fails. -/
def statsFailureState : AppState :=
  { initialState with stats := some oldStatsSnap, recommendations := [itemAlpha] }

def videoFilter : String := "video"

def blankQuery : String := "   "

def trendingQuery : String := "trending videos"

def demoUserTwo : String := "demo_user_2"

/-- Claim C1: the spec requires that a response mutates the ResultSet iff
its generation equals the per-kind generation counter at arrival, so an
earlier-generation response arriving late must be a no-op. The code has
no generation counter: running the controller on two overlapping searches
(`alpha` then `beta`) whose responses settle out of order, both search
requests are issued, and the stale first-generation response - arriving
after the second-generation response was already applied - overwrites
`searchResults` with the results of `alpha` instead of leaving the
results of `beta` in place. -/
theorem staleSearchResponseMutatesState :
    (runController initialState staleRaceTrace).2.map Request.kind =
      [FetchKind.search, FetchKind.search] ∧
    (runController initialState staleRaceTrace).1.searchResults = [itemAlpha] ∧
    (runController initialState staleRaceTrace).1.searchResults ≠ [itemBeta] := by
  refine ⟨by decide, by decide, by decide⟩

/-- Claim C2 counterexample: the claim says every query kind's failure
clears that kind's result data and sets a human-readable error message.
For the stats kind this is false: at a concrete state holding a previous
stats snapshot, a stats failure is a complete no-op - the snapshot is not
cleared and no error message is set. -/
theorem statsFailureIsSilent :
    applyResponse FetchResponse.statsErr statsFailureState = statsFailureState ∧
    (applyResponse FetchResponse.statsErr statsFailureState).error = none ∧
    (applyResponse FetchResponse.statsErr statsFailureState).stats = some oldStatsSnap := by
  refine ⟨rfl, rfl, rfl⟩

/-- Claim C2 amended: a recommendations or search failure clears that
kind's result list, sets a human-readable error message, and leaves the
data of every other query kind unchanged; a stats or abArm failure leaves
the whole controller state unchanged (logged only) - so in particular a
stats failure never blanks out recommendations. -/
theorem fetchFailureIsolation (s : AppState) :
    ((applyResponse FetchResponse.recErr s).recommendations = [] ∧
     (applyResponse FetchResponse.recErr s).error = some recFetchErrMsg ∧
     (applyResponse FetchResponse.recErr s).searchResults = s.searchResults ∧
     (applyResponse FetchResponse.recErr s).stats = s.stats ∧
     (applyResponse FetchResponse.recErr s).abTestInfo = s.abTestInfo) ∧
    ((applyResponse FetchResponse.searchErr s).searchResults = [] ∧
     (applyResponse FetchResponse.searchErr s).error = some searchErrMsg ∧
     (applyResponse FetchResponse.searchErr s).recommendations = s.recommendations ∧
     (applyResponse FetchResponse.searchErr s).stats = s.stats ∧
     (applyResponse FetchResponse.searchErr s).abTestInfo = s.abTestInfo) ∧
    applyResponse FetchResponse.statsErr s = s ∧
    applyResponse FetchResponse.abErr s = s :=
  ⟨⟨rfl, rfl, rfl, rfl, rfl⟩, ⟨rfl, rfl, rfl, rfl, rfl⟩, rfl, rfl⟩

/-- Claim C3 counterexample: the claim says a `changeFilter` updates the
SessionContext and triggers no fetch automatically (fetches only via
refresh or the mount/user-change effect). But the data-loading effect
depends on the `fetchRecommendations` callback, which is recreated when
`contentTypeFilter` changes: at the initial state, changing the filter to
`video` issues no request synchronously yet re-runs the effect, which
dispatches a recommendations request and an abArm request - an automatic
fetch caused by a filter change alone. -/
theorem filterChangeTriggersAutoFetch :
    (changeFilter videoFilter initialState).2 = [] ∧
    dataEffectReruns initialState (changeFilter videoFilter initialState).1 = true ∧
    (dataEffectBody (changeFilter videoFilter initialState).1).2.map Request.kind =
      [FetchKind.recommendations, FetchKind.abArm] := by
  refine ⟨rfl, by decide, by decide⟩

/-- Claim C3 amended: `changeFilter`/`changeUser` update only their
SessionContext field and issue no request synchronously; however the
data-loading effect re-runs whenever `userId` or `contentTypeFilter`
changes, so a content-type filter change - exactly like a user change -
does automatically trigger the recommendations and abArm fetches.
Stated for a filter value `f` differing from the current one and a user
id `u` differing from the current one and non-empty after trimming (so
the re-run effect's own validation passes and its fetches dispatch). -/
theorem sessionContextChangeRetriggersDataEffect (s : AppState) (f u : String)
    (hf : f ≠ s.contentTypeFilter) (hcu : jsTrim s.currentUser ≠ "")
    (hun : u ≠ s.currentUser) (hut : jsTrim u ≠ "") :
    (changeFilter f s).1 = { s with contentTypeFilter := f } ∧
    (changeFilter f s).2 = [] ∧
    dataEffectReruns s (changeFilter f s).1 = true ∧
    (dataEffectBody (changeFilter f s).1).2.map Request.kind =
      [FetchKind.recommendations, FetchKind.abArm] ∧
    (changeUser u s).1 = { s with currentUser := u } ∧
    (changeUser u s).2 = [] ∧
    dataEffectReruns s (changeUser u s).1 = true ∧
    (dataEffectBody (changeUser u s).1).2.map Request.kind =
      [FetchKind.recommendations, FetchKind.abArm] := by
  refine ⟨rfl, rfl, ?_, ?_, rfl, rfl, ?_, ?_⟩
  · simp only [dataEffectReruns, dataEffectDeps, changeFilter, decide_eq_true_eq, ne_eq,
      Prod.mk.injEq, not_and]
    intro _ hf2
    exact hf hf2.symm
  · simp [dataEffectBody, fetchRecommendationsDispatch, fetchAbTestInfoDispatch, changeFilter, hcu]
  · simp only [dataEffectReruns, dataEffectDeps, changeUser, decide_eq_true_eq, ne_eq,
      Prod.mk.injEq, not_and]
    intro hu2
    exact absurd hu2.symm hun
  · simp [dataEffectBody, fetchRecommendationsDispatch, fetchAbTestInfoDispatch, changeUser, hut]

/-- Claim C3 amended claim witness at a concrete input: a filter change
to `video` and a user change to `demo_user_2` at the initial state. -/
theorem sessionContextChangeRetriggersDataEffect_witness :
    videoFilter ≠ initialState.contentTypeFilter ∧
    jsTrim initialState.currentUser ≠ "" ∧
    demoUserTwo ≠ initialState.currentUser ∧
    jsTrim demoUserTwo ≠ "" ∧
    ((changeFilter videoFilter initialState).1 =
        { initialState with contentTypeFilter := videoFilter } ∧
      (changeFilter videoFilter initialState).2 = [] ∧
      dataEffectReruns initialState (changeFilter videoFilter initialState).1 = true ∧
      (dataEffectBody (changeFilter videoFilter initialState).1).2.map Request.kind =
        [FetchKind.recommendations, FetchKind.abArm] ∧
      (changeUser demoUserTwo initialState).1 =
        { initialState with currentUser := demoUserTwo } ∧
      (changeUser demoUserTwo initialState).2 = [] ∧
      dataEffectReruns initialState (changeUser demoUserTwo initialState).1 = true ∧
      (dataEffectBody (changeUser demoUserTwo initialState).1).2.map Request.kind =
        [FetchKind.recommendations, FetchKind.abArm]) :=
  ⟨by decide, by decide, by decide, by decide,
    sessionContextChangeRetriggersDataEffect initialState videoFilter demoUserTwo
      (by decide) (by decide) (by decide) (by decide)⟩

/-- Claim C4: `refresh()` re-issues the fetch of the active tab
(recommendations on the recommendations tab, otherwise a search for the
last search query when one exists) and, regardless of the active tab,
always also re-issues the stats and abArm fetches. Stated for states with
a non-empty trimmed user id (the per-fetch validation documented in the
spec) and a last search query that is either absent or well-formed (the
only values `handleSearch` ever stores). -/
theorem handleRefreshReissuesStatsAndAbArm (s : AppState)
    (hu : jsTrim s.currentUser ≠ "")
    (hq : s.lastSearchQuery = "" ∨ jsTrim s.lastSearchQuery ≠ "") :
    (handleRefreshDispatch s).2.map Request.kind =
      (if s.activeTab = recommendationsTab then [FetchKind.recommendations]
       else if s.lastSearchQuery = "" then []
       else [FetchKind.search]) ++ [FetchKind.stats, FetchKind.abArm] ∧
    FetchKind.stats ∈ (handleRefreshDispatch s).2.map Request.kind ∧
    FetchKind.abArm ∈ (handleRefreshDispatch s).2.map Request.kind := by
  have hmain : (handleRefreshDispatch s).2.map Request.kind =
      (if s.activeTab = recommendationsTab then [FetchKind.recommendations]
       else if s.lastSearchQuery = "" then []
       else [FetchKind.search]) ++ [FetchKind.stats, FetchKind.abArm] := by
    by_cases hr : s.activeTab = recommendationsTab
    · simp [handleRefreshDispatch, fetchRecommendationsDispatch, fetchStatsDispatch,
        fetchAbTestInfoDispatch, hr, hu]
    · rcases hq with hq0 | hq1
      · simp [handleRefreshDispatch, fetchStatsDispatch, fetchAbTestInfoDispatch, hr, hq0, hu]
      · have hne : ¬s.lastSearchQuery = "" := by
          intro h0
          rw [h0] at hq1
          exact hq1 rfl
        simp [handleRefreshDispatch, handleSearchDispatch, fetchStatsDispatch,
          fetchAbTestInfoDispatch, hr, hne, hq1, hu]
  refine ⟨hmain, ?_, ?_⟩ <;> rw [hmain] <;> simp

/-- Claim C4 witness at the initial state. -/
theorem handleRefreshReissuesStatsAndAbArm_witness :
    jsTrim initialState.currentUser ≠ "" ∧
    (initialState.lastSearchQuery = "" ∨ jsTrim initialState.lastSearchQuery ≠ "") ∧
    ((handleRefreshDispatch initialState).2.map Request.kind =
        (if initialState.activeTab = recommendationsTab then [FetchKind.recommendations]
         else if initialState.lastSearchQuery = "" then []
         else [FetchKind.search]) ++ [FetchKind.stats, FetchKind.abArm] ∧
      FetchKind.stats ∈ (handleRefreshDispatch initialState).2.map Request.kind ∧
      FetchKind.abArm ∈ (handleRefreshDispatch initialState).2.map Request.kind) :=
  ⟨by decide, Or.inl rfl,
    handleRefreshReissuesStatsAndAbArm initialState (by decide) (Or.inl rfl)⟩

/-- Claim C5: for every query that is empty after trimming,
`handleSearch` returns before any state write or network call: the
controller state is left entirely unchanged and no request is issued. -/
theorem emptyQuerySubmitSearchIsNoop (s : AppState) (q : String) (h : jsTrim q = "") :
    handleSearchDispatch q s = (s, []) := by
  simp [handleSearchDispatch, h]

/-- Claim C5 witness: a whitespace-only query at the initial state. -/
theorem emptyQuerySubmitSearchIsNoop_witness :
    jsTrim blankQuery = "" ∧ handleSearchDispatch blankQuery initialState = (initialState, []) :=
  ⟨by decide, emptyQuerySubmitSearchIsNoop initialState blankQuery (by decide)⟩

/-- Claim C6: a tab switch changes only `activeTab`: it issues no request
and leaves both previously loaded result sets - and every other state
cell - untouched. -/
theorem changeTabIsPureFrame (t : String) (s : AppState) :
    (changeTab t s).1.activeTab = t ∧
    (changeTab t s).2 = [] ∧
    (changeTab t s).1.recommendations = s.recommendations ∧
    (changeTab t s).1.searchResults = s.searchResults ∧
    (changeTab t s).1.currentUser = s.currentUser ∧
    (changeTab t s).1.contentTypeFilter = s.contentTypeFilter ∧
    (changeTab t s).1.lastSearchQuery = s.lastSearchQuery ∧
    (changeTab t s).1.stats = s.stats ∧
    (changeTab t s).1.abTestInfo = s.abTestInfo ∧
    (changeTab t s).1.algorithm = s.algorithm ∧
    (changeTab t s).1.error = s.error :=
  ⟨rfl, rfl, rfl, rfl, rfl, rfl, rfl, rfl, rfl, rfl, rfl⟩

/-- Claim C7: the stats-polling effect fires exactly once at mount (time
0) and thereafter exactly at the positive multiples of the 30000 ms
period that precede teardown; for any time at or after teardown (other
than the mount call itself, which precedes any positive teardown time)
the characterization yields no call, i.e. the cancelled interval never
fires again. -/
theorem statsPollingSchedule (teardownAt t : Nat) :
    statsPollFires teardownAt 0 = true ∧
    (statsPollFires teardownAt t = true ↔
      t = 0 ∨ (0 < t ∧ t % statsPollPeriodMs = 0 ∧ t < teardownAt)) := by
  constructor
  · simp [statsPollFires]
  · simp [statsPollFires, intervalFires, and_assoc]

/-- Claim C8: an interaction emission posts an InteractionEvent built from
the current SessionContext user id and the given item and type; a success
settlement enqueues a success toast, a failure settlement an error toast,
and in both cases the controller state (result sets, session context and
all the rest) is returned unchanged. -/
theorem logInteractionOutcomeContract (s : AppState) (itemId itype : String)
    (vd : Option Nat) (ok : Bool) :
    (logInteraction s itemId itype vd ok).1 = s ∧
    (logInteraction s itemId itype vd ok).2.1.user_id = s.currentUser ∧
    (logInteraction s itemId itype vd ok).2.1.item_id = itemId ∧
    (logInteraction s itemId itype vd ok).2.1.type = itype ∧
    (logInteraction s itemId itype vd ok).2.1.dwell_seconds = vd.getD 0 ∧
    (logInteraction s itemId itype vd ok).2.2.kind =
      (if ok then NotifKind.success else NotifKind.error) := by
  cases ok <;> simp [logInteraction]

/-- Claim C9: a pushed notification is appended to the visible set (the
body's children) immediately, carrying a freshly generated node id; it is
present exactly during the fixed window from its creation until the
deterministic total lifetime (visible delay 3000 ms plus exit animation
300 ms, with the 100 ms entrance settle running inside the window)
elapses, and absent afterward with no manual dismissal path. -/
theorem notificationLifetimeWindow (body : List DomNotification) (freshId : Nat)
    (message : String) (kind : NotifKind) (now t : Nat) :
    (showNotification body freshId message kind now).1 =
      body ++ [{ nodeId := freshId, message := message, kind := kind, createdAt := now }] ∧
    (showNotification body freshId message kind now).2 = freshId + 1 ∧
    (notifPresentAt { nodeId := freshId, message := message, kind := kind, createdAt := now } t
        = true ↔ now ≤ t ∧ t < now + notifLifetimeMs) ∧
    notifLifetimeMs = notifVisibleDelayMs + notifExitAnimMs ∧
    notifLifetimeMs = 3300 := by
  refine ⟨rfl, rfl, ?_, rfl, rfl⟩
  simp [notifPresentAt]

/-- Claim C10: for every query that is non-empty after trimming, the
dispatch phase of `handleSearch` records the query in `lastSearchQuery`
and switches `activeTab` to the search tab before the request resolves;
and when the request then fails, the failure arm only clears the search
result list, sets the search error message and drops the loading flag -
`activeTab` and `lastSearchQuery` keep their new values and the
recommendations, stats and ab-arm data are untouched. -/
theorem searchFailureKeepsTabAndQuery (s : AppState) (q : String) (h : jsTrim q ≠ "") :
    (handleSearchDispatch q s).1.lastSearchQuery = q ∧
    (handleSearchDispatch q s).1.activeTab = searchTab ∧
    applyResponse FetchResponse.searchErr (handleSearchDispatch q s).1 =
      { s with searchLoading := false, error := some searchErrMsg,
               lastSearchQuery := q, activeTab := searchTab, searchResults := [] } := by
  simp [handleSearchDispatch, applyResponse, h]

/-- Claim C10 witness: a concrete non-empty query at the initial state. -/
theorem searchFailureKeepsTabAndQuery_witness :
    jsTrim trendingQuery ≠ "" ∧
    ((handleSearchDispatch trendingQuery initialState).1.lastSearchQuery = trendingQuery ∧
      (handleSearchDispatch trendingQuery initialState).1.activeTab = searchTab ∧
      applyResponse FetchResponse.searchErr (handleSearchDispatch trendingQuery initialState).1 =
        { initialState with searchLoading := false, error := some searchErrMsg,
                            lastSearchQuery := trendingQuery, activeTab := searchTab,
                            searchResults := [] }) :=
  ⟨by decide, searchFailureKeepsTabAndQuery initialState trendingQuery (by decide)⟩

end RecApp
